import Mathlib

/-!
Verification development for the guestspost marketplace backend.

The definitions below are a shallow embedding of the TypeScript services:
the document database is modelled as an explicit list of records, every
service operation is a pure function from the database (plus the call
inputs and the current wall-clock time, in milliseconds) to an outcome
record carrying the returned value or typed application error, the
database after the call, the list of notification e-mail dispatches that
were attempted, and the log lines produced.  E-mail sending is modelled by
a Boolean `emailOk` parameter saying whether the underlying SMTP send
succeeds; the services wrap every send in a try/catch, which the embedding
reflects by routing the failure into the log only.

JavaScript truthiness on strings ("" is falsy) and numbers (0 is falsy) is
made explicit through the jsOr helpers; an absent (undefined) field is
modelled as `none` or as the empty string where the source treats the two
alike.
-/

namespace Guestpost

/-- Typed application error: message plus HTTP status hint (AppError in the source). -/
structure AppError where
  message : String
  statusCode : Nat
deriving DecidableEq

/-- The four persisted order states (order.model status enum). -/
inductive OrderStatus
  | pending
  | processing
  | completed
  | failed
deriving DecidableEq

/-- Uploaded file metadata carried on an order (CreateOrderDto.file). -/
structure OrderFile where
  name : String
  type : String
  size : Nat
  data : String
deriving DecidableEq

/-- An order document.  `oid` stands for the Mongo `_id`; timestamps are
milliseconds since the epoch. -/
structure Order where
  oid : Nat
  userId : String
  user_id : String
  userName : String
  userEmail : String
  item_name : String
  price : Rat
  type : String
  status : OrderStatus
  date : Nat
  description : Option String := none
  features : List String := []
  article : Option String := none
  file : Option OrderFile := none
  message : Option String := none
  message_time : Option Nat := none
  submittedAt : Option Nat := none
  completionMessage : Option String := none
  completionLink : Option String := none
  completedAt : Option Nat := none
  updatedAt : Option Nat := none
deriving DecidableEq

/-- A user document (the fields the order service reads). -/
structure User where
  uid : String
  user_email : String
  user_nicename : String
deriving DecidableEq

/-- The kinds of transactional notification e-mails the services dispatch. -/
inductive EmailKind
  | orderConfirmation
  | orderCompletion
  | orderStatusUpdate
  | submissionReceived
  | submissionApproval
  | submissionRejection
deriving DecidableEq

/-- One attempted e-mail dispatch: which template, to which address. -/
structure EmailAttempt where
  kind : EmailKind
  recipient : String
deriving DecidableEq

/-- JavaScript `a || b` on numbers (0 and undefined are falsy). -/
def jsOrNum (a : Option Rat) (b : Rat) : Rat :=
  match a with
  | some v => if v = 0 then b else v
  | none => b

/-- JavaScript `a || b` on strings ("" and undefined are falsy; an absent
string field is modelled as ""). -/
def jsOrStr (a b : String) : String :=
  if a = "" then b else a

/-- Mongoose update-object semantics: a provided field overwrites, an
absent (undefined) field leaves the stored value. -/
def patchField {α : Type} (p old : Option α) : Option α :=
  match p with
  | some v => some v
  | none => old

/-- Replace the first list element satisfying `p` (findByIdAndUpdate on a
document database, `_id` lookups returning the first match). -/
def replaceFirst {α : Type} (p : α → Bool) (x : α) : List α → List α
  | [] => []
  | a :: rest => if p a then x :: rest else a :: replaceFirst p x rest

/-- The 24-hex-character Mongo ObjectId shape tested by the source regex
`^[0-9a-fA-F]\x7b24\x7d$`. -/
def isValidObjectId (s : String) : Bool :=
  s.length = 24 && s.toList.all fun c =>
    c.isDigit || (Char.ofNat 97 ≤ c && c ≤ Char.ofNat 102) ||
      (Char.ofNat 65 ≤ c && c ≤ Char.ofNat 70)

/-- JavaScript `.toLowerCase()`, written over the character list so that
it evaluates by reduction. -/
def lowerString (s : String) : String :=
  String.mk (s.data.map Char.toLower)

/-- JavaScript `.trim()`: strip leading and trailing whitespace, written
over the character list so that it evaluates by reduction. -/
def trimString (s : String) : String :=
  String.mk (((s.data.dropWhile Char.isWhitespace).reverse.dropWhile Char.isWhitespace).reverse)

/-- JavaScript `split("@")[0]` on an e-mail address: the characters before
the first at-sign. -/
def emailLocalPart (s : String) : String :=
  String.mk (s.data.takeWhile fun c => c ≠ Char.ofNat 64)

/-- Caller input for createOrder (CreateOrderDto plus the untyped extra
fields the service reads through `data as any`).  `status` stands for a
caller-supplied status value, which the service never copies. -/
structure CreateOrderDto where
  userId : String := ""
  user_id : String := ""
  userName : String := ""
  userEmail : String := ""
  item_name : String := ""
  price : Option Rat := none
  amount : Option Rat := none
  type : String := ""
  description : Option String := none
  features : List String := []
  article : Option String := none
  file : Option OrderFile := none
  message : Option String := none
  submittedAt : Option Nat := none
  name : Option String := none
  title : Option String := none
  status : Option OrderStatus := none
deriving DecidableEq

/-- User resolution fallback chain of createOrder after the ObjectId
lookup failed: findOne by lowercased e-mail, then findOne on
user_email/_id matching `user_id`. -/
def resolveUserFallback (users : List User) (d : CreateOrderDto) : Option User :=
  let byEmail :=
    if d.userEmail ≠ "" then
      users.find? fun u => u.user_email == lowerString d.userEmail
    else none
  match byEmail with
  | some u => some u
  | none =>
      if d.user_id ≠ "" then
        users.find? fun u => u.user_email == lowerString d.user_id || u.uid == d.user_id
      else none

/-- createOrder user resolution: findById when `userId` is a well-formed
ObjectId, then the e-mail / user_id fallback chain. -/
def resolveUser (users : List User) (d : CreateOrderDto) : Option User :=
  let byId :=
    if d.userId ≠ "" && isValidObjectId d.userId then
      users.find? fun u => u.uid == d.userId
    else none
  match byId with
  | some u => some u
  | none => resolveUserFallback users d

/-- Outcome of an order-service call. -/
structure OrderOpOutcome where
  result : Except AppError Order
  db : List Order
  attempts : List EmailAttempt
  logs : List String

/-- orderService.createOrder (part_003 variant): resolve the user, check
the amount and the item name/type, then persist a pending order. -/
def createOrder (users : List User) (db : List Order) (d : CreateOrderDto)
    (now nextId : Nat) : OrderOpOutcome :=
  match resolveUser users d with
  | none => ⟨.error ⟨"User not found", 404⟩, db, [], []⟩
  | some user =>
      let orderAmount := jsOrNum d.price (jsOrNum d.amount 0)
      if orderAmount ≤ 0 then
        ⟨.error ⟨"Order amount must be greater than 0", 400⟩, db, [], []⟩
      else
        let itemName := jsOrStr d.item_name (jsOrStr (d.name.getD "") (d.title.getD ""))
        if trimString itemName = "" then
          ⟨.error ⟨"Item name is required", 400⟩, db, [], []⟩
        else
          let orderType := jsOrStr d.type "service"
          if trimString orderType = "" then
            ⟨.error ⟨"Order type is required", 400⟩, db, [], []⟩
          else
            let order : Order :=
              { oid := nextId
                userId := user.uid
                user_id := jsOrStr d.user_id (jsOrStr d.userEmail user.user_email)
                userName := jsOrStr d.userName
                  (jsOrStr user.user_nicename (emailLocalPart user.user_email))
                userEmail := lowerString (jsOrStr d.userEmail user.user_email)
                item_name := itemName
                price := orderAmount
                type := orderType
                status := .pending
                date := now
                description := d.description
                features := d.features
                article := d.article
                file := d.file
                message := d.message
                message_time := if d.message.isSome then some now else none
                submittedAt := d.submittedAt }
            ⟨.ok order, db ++ [order], [], []⟩

/-- Caller patch for updateOrder (UpdateOrderDto). -/
structure UpdateOrderDto where
  status : Option OrderStatus := none
  description : Option String := none
  features : Option (List String) := none
  article : Option String := none
  file : Option OrderFile := none
  message : Option String := none
  completionMessage : Option String := none
  completionLink : Option String := none
  completedAt : Option Nat := none
deriving DecidableEq

/-- findByIdAndUpdate document semantics for the updateOrder patch:
spread the provided fields over the stored order, stamping updatedAt. -/
def applyOrderPatch (o : Order) (d : UpdateOrderDto) (now : Nat) : Order :=
  { o with
    status := d.status.getD o.status
    description := patchField d.description o.description
    features := d.features.getD o.features
    article := patchField d.article o.article
    file := patchField d.file o.file
    message := patchField d.message o.message
    completionMessage := patchField d.completionMessage o.completionMessage
    completionLink := patchField d.completionLink o.completionLink
    completedAt := patchField d.completedAt o.completedAt
    updatedAt := some now }

/-- The notification selected by updateOrder when the persisted status
changed, mirroring the if/else-if chain of the source. -/
def updateOrderNotification (previousStatus newStatus : OrderStatus) : Option EmailKind :=
  if newStatus ≠ previousStatus then
    if previousStatus = .pending ∧ newStatus = .processing then
      some .orderConfirmation
    else if newStatus = .completed then
      some .orderCompletion
    else if newStatus = .failed ∨ (newStatus = .processing ∧ previousStatus ≠ .pending) then
      some .orderStatusUpdate
    else
      none
  else
    none

/-- The try/catch around a notification send: the attempt is recorded
either way, the failure only reaches the log. -/
def trySendEmail (a : EmailAttempt) (emailOk : Bool) : List EmailAttempt × List String :=
  ([a], if emailOk then ["email sent"] else ["email send failed"])

/-- orderService.updateOrder: load previous, apply the patch, then
dispatch at most one status-change notification inside a try/catch. -/
def updateOrder (db : List Order) (id : Nat) (d : UpdateOrderDto)
    (now : Nat) (emailOk : Bool) : OrderOpOutcome :=
  match db.find? (fun o => o.oid == id) with
  | none => ⟨.error ⟨"Order not found", 404⟩, db, [], []⟩
  | some previousOrder =>
      let previousStatus := previousOrder.status
      let order := applyOrderPatch previousOrder d now
      let db2 := replaceFirst (fun o => o.oid == id) order db
      let (attempts, logs) :=
        match updateOrderNotification previousStatus order.status with
        | none => ([], [])
        | some k => trySendEmail ⟨k, order.userEmail⟩ emailOk
      ⟨.ok order, db2, attempts, logs⟩

/-- orderService.completeOrder: force status completed, store completion
metadata, and unconditionally send the completion e-mail (try/catch). -/
def completeOrder (db : List Order) (id : Nat)
    (completionMessage completionLink : Option String)
    (now : Nat) (emailOk : Bool) : OrderOpOutcome :=
  match db.find? (fun o => o.oid == id) with
  | none => ⟨.error ⟨"Order not found", 404⟩, db, [], []⟩
  | some prev =>
      let order : Order :=
        { prev with
          status := .completed
          completionMessage := patchField completionMessage prev.completionMessage
          completionLink := patchField completionLink prev.completionLink
          completedAt := some now
          updatedAt := some now }
      let db2 := replaceFirst (fun o => o.oid == id) order db
      let (attempts, logs) := trySendEmail ⟨.orderCompletion, order.userEmail⟩ emailOk
      ⟨.ok order, db2, attempts, logs⟩

/-- Aggregate figures returned by getOrderStats. -/
structure OrderStats where
  total : Nat
  pending : Nat
  processing : Nat
  completed : Nat
  failed : Nat
  totalRevenue : Rat
  averageOrderValue : Rat
deriving DecidableEq

/-- orderService.getOrderStats: per-status counts plus revenue sum and
average price over the orders matching the optional user filter; the
aggregate yields 0 for both revenue figures when nothing matches. -/
def getOrderStats (db : List Order) (userId : Option String) : OrderStats :=
  let queryMatch := fun (o : Order) =>
    match userId with
    | none => true
    | some u => o.userId == u
  let matching := db.filter queryMatch
  let revenue := (matching.map Order.price).sum
  { total := matching.length
    pending := (matching.filter fun o => o.status == .pending).length
    processing := (matching.filter fun o => o.status == .processing).length
    completed := (matching.filter fun o => o.status == .completed).length
    failed := (matching.filter fun o => o.status == .failed).length
    totalRevenue := if matching.length = 0 then 0 else revenue
    averageOrderValue :=
      if matching.length = 0 then 0 else revenue / (matching.length : Rat) }

/-- Site-submission review states (siteSubmission.model status enum). -/
inductive SubmissionStatus
  | pending
  | approved
  | rejected
deriving DecidableEq

/-- A site-submission document (the fields the service reads/writes). -/
structure SiteSubmission where
  sid : Nat
  userId : Option String := none
  userName : String
  userEmail : String
  websites : List String
  isOwner : Bool := false
  csvFilePath : Option String := none
  status : SubmissionStatus
  submittedAt : Nat
  reviewedAt : Option Nat := none
  reviewedBy : Option String := none
  adminNotes : Option String := none
deriving DecidableEq

/-- Caller input for createSiteSubmission. -/
structure CreateSiteSubmissionDto where
  userId : Option String := none
  userName : String
  userEmail : String
  websites : List String
  isOwner : Bool := false
  csvFilePath : Option String := none
deriving DecidableEq

/-- Admin patch for updateSiteSubmission (UpdateSiteSubmissionDto). -/
structure UpdateSiteSubmissionDto where
  status : Option SubmissionStatus := none
  adminNotes : Option String := none
  reviewedBy : Option String := none
deriving DecidableEq

/-- Outcome of a site-submission service call. -/
structure SubmissionOpOutcome where
  result : Except AppError SiteSubmission
  db : List SiteSubmission
  attempts : List EmailAttempt
  logs : List String

/-- siteSubmissionService.createSiteSubmission: persist the submission
(schema default status pending, submittedAt now), then send the received
acknowledgement e-mail inside a try/catch. -/
def createSiteSubmission (db : List SiteSubmission) (d : CreateSiteSubmissionDto)
    (now nextId : Nat) (emailOk : Bool) : SubmissionOpOutcome :=
  let sub : SiteSubmission :=
    { sid := nextId
      userId := d.userId
      userName := d.userName
      userEmail := d.userEmail
      websites := d.websites
      isOwner := d.isOwner
      csvFilePath := d.csvFilePath
      status := .pending
      submittedAt := now }
  let (attempts, logs) := trySendEmail ⟨.submissionReceived, d.userEmail⟩ emailOk
  ⟨.ok sub, db ++ [sub], attempts, logs⟩

/-- The notification dispatched by updateSiteSubmission when the patch
carries a status and the status actually changed. -/
def submissionNotification (oldStatus : SubmissionStatus)
    (newStatus : Option SubmissionStatus) : Option EmailKind :=
  match newStatus with
  | none => none
  | some ns =>
      if oldStatus ≠ ns then
        if ns = .approved then some .submissionApproval
        else if ns = .rejected then some .submissionRejection
        else none
      else none

/-- siteSubmissionService.updateSiteSubmission: load current, apply the
patch stamping reviewedAt with the current time, then dispatch the
approval/rejection notification inside a try/catch. -/
def updateSiteSubmission (db : List SiteSubmission) (id : Nat)
    (d : UpdateSiteSubmissionDto) (now : Nat) (emailOk : Bool) : SubmissionOpOutcome :=
  match db.find? (fun s => s.sid == id) with
  | none => ⟨.error ⟨"Site submission not found", 404⟩, db, [], []⟩
  | some currentSubmission =>
      let updated : SiteSubmission :=
        { currentSubmission with
          status := d.status.getD currentSubmission.status
          adminNotes := patchField d.adminNotes currentSubmission.adminNotes
          reviewedBy := patchField d.reviewedBy currentSubmission.reviewedBy
          reviewedAt := some now }
      let db2 := replaceFirst (fun s => s.sid == id) updated db
      let (attempts, logs) :=
        match submissionNotification currentSubmission.status d.status with
        | none => ([], [])
        | some k => trySendEmail ⟨k, updated.userEmail⟩ emailOk
      ⟨.ok updated, db2, attempts, logs⟩

/-- One entry of the ordered content sequence of a message thread. -/
structure MessageContent where
  sender : String
  text : String
  time : Nat
deriving DecidableEq

/-- A message-thread document keyed by an opaque commentId. -/
structure MessageThread where
  commentId : String
  userEmail : String
  content : List MessageContent
  date : Nat
  approved : Nat
deriving DecidableEq

/-- messageService.addMessageToThread: find the thread, push the entry,
touch `date`, force approved = 1; null and no write when absent. -/
def addMessageToThread (threads : List MessageThread) (commentId : String)
    (newMessage : MessageContent) (now : Nat) :
    Option MessageThread × List MessageThread :=
  match threads.find? (fun m => m.commentId == commentId) with
  | none => (none, threads)
  | some message =>
      let updated : MessageThread :=
        { message with
          content := message.content ++ [newMessage]
          date := now
          approved := 1 }
      (some updated, replaceFirst (fun m => m.commentId == commentId) updated threads)

/-- messageService.getMessagesByUserEmail: the threads of the user sorted by
`date` descending. -/
def getMessagesByUserEmail (threads : List MessageThread) (userEmail : String) :
    List MessageThread :=
  (threads.filter fun m => m.userEmail == userEmail).mergeSort fun a b => b.date ≤ a.date

/-- One event pushed on the message stream: a content entry tagged with
the commentId of its thread. -/
structure StreamEvent where
  sender : String
  text : String
  time : Nat
  commentId : String
deriving DecidableEq

/-- The flattening of threads into tagged content entries
(`messages.flatMap` over the content arrays). -/
def flattenThreads : List MessageThread → List StreamEvent
  | [] => []
  | m :: rest =>
      (m.content.map fun c => ⟨c.sender, c.text, c.time, m.commentId⟩) ++ flattenThreads rest

/-- The part_008 poll-body filter: with a lastId cursor, keep entries
strictly newer than now minus 10 seconds; without one, keep all. -/
def pollNewMessages (threads : List MessageThread) (lastId : Option String)
    (now : Nat) : List StreamEvent :=
  (flattenThreads threads).filter fun msg =>
    match lastId with
    | none => true
    | some _ => decide (now - 10000 < msg.time)

/-- The events the server-sent-events connection writes. -/
inductive SseEvent
  | errorEvent (msg : String)
  | connected
  | message (e : StreamEvent)
deriving DecidableEq

/-- State of one stream connection: events written so far, whether the
polling timer is live, whether the response has been ended. -/
structure SseConn where
  events : List SseEvent
  timerActive : Bool
  resEnded : Bool
deriving DecidableEq

/-- What can happen to an open connection: a 2-second timer tick at some
wall-clock time, or the client disconnecting. -/
inductive StreamAction
  | tick (now : Nat)
  | close
deriving DecidableEq

/-- messageStream connection setup: unauthenticated requests get a 401
error event and an ended response; authenticated ones get the connected
acknowledgement and a live polling timer. -/
def messageStreamInit (userEmail : Option String) : SseConn :=
  match userEmail with
  | none => ⟨[.errorEvent "Unauthorized"], false, true⟩
  | some _ => ⟨[.connected], true, false⟩

/-- One step of the connection: a tick re-queries and pushes the filtered
events while the timer is live; close runs clearInterval and res.end. -/
def streamStep (userEmail : String) (threads : List MessageThread)
    (lastId : Option String) (s : SseConn) : StreamAction → SseConn
  | .tick now =>
      if s.timerActive then
        { s with
          events := s.events ++
            (pollNewMessages (getMessagesByUserEmail threads userEmail) lastId now).map .message }
      else s
  | .close => { s with timerActive := false, resEnded := true }

/-- The whole life of one authenticated stream connection under a given
sequence of ticks and disconnects. -/
def messageStreamRun (threads : List MessageThread) (userEmail : String)
    (lastId : Option String) (acts : List StreamAction) : SseConn :=
  acts.foldl (streamStep userEmail threads lastId) (messageStreamInit (some userEmail))

/-- Uniform gateway result shape of the payment façade. -/
structure PaymentResult where
  success : Bool
  paymentId : Option String := none
  clientSecret : Option String := none
  approvalUrl : Option String := none
deriving DecidableEq

/-- The error object the PayPal SDK hands to the create-payment callback. -/
structure PayPalError where
  httpStatusCode : Option Nat := none
  responseError : Option String := none
  responseErrorDescription : Option String := none
  errMessage : Option String := none
deriving DecidableEq

/-- One link of a PayPal payment resource. -/
structure PayPalLink where
  rel : String
  href : String
deriving DecidableEq

/-- The payment resource the PayPal SDK hands back on success. -/
structure PayPalPayment where
  pid : String
  links : Option (List PayPalLink) := none
deriving DecidableEq

/-- What the gateway call can come back with. -/
inductive PayPalCreateOutcome
  | gatewayError (e : PayPalError)
  | gatewayOk (p : PayPalPayment)
deriving DecidableEq

/-- JavaScript `a || b || c` over optional strings (undefined falsy;
gateway strings are modelled as present-and-nonempty or absent). -/
def jsOrOpt (a b : Option String) (c : String) : String :=
  match a with
  | some v => v
  | none =>
      match b with
      | some v => v
      | none => c

/-- paymentService.createPayPalPayment callback logic: a 401 or
invalid_client gateway error becomes a credential-configuration AppError
with status 401; any other gateway error passes through its message and
status code (500 when absent); a success resolves to the approval link. -/
def createPayPalPayment (paypalConfigured : Bool)
    (outcome : PayPalCreateOutcome) : Except AppError PaymentResult :=
  if ¬ paypalConfigured then
    .error ⟨"PayPal SDK is not initialized. Please check your PayPal credentials", 500⟩
  else
    match outcome with
    | .gatewayError e =>
        if e.httpStatusCode = some 401 ∨ e.responseError = some "invalid_client" then
          let errorMsg :=
            jsOrOpt e.responseErrorDescription e.errMessage "PayPal authentication failed"
          .error ⟨"PayPal authentication failed: " ++ errorMsg ++
            ". Please verify your PayPal credentials in the .env file match your PayPal Developer Dashboard.", 401⟩
        else
          .error ⟨jsOrOpt e.errMessage e.responseErrorDescription
              "Failed to create PayPal payment",
            e.httpStatusCode.getD 500⟩
    | .gatewayOk p =>
        match p.links with
        | none => .error ⟨"Invalid PayPal payment response", 500⟩
        | some links =>
            match links.find? (fun l => l.rel == "approval_url") with
            | none => .error ⟨"PayPal approval URL not found", 500⟩
            | some link =>
                .ok { success := true, paymentId := some p.pid, approvalUrl := some link.href }

/-- What retrieving a Stripe payment intent can come back with. -/
inductive StripeRetrieveOutcome
  | gatewayError (msg : String)
  | gatewayOk (status : String)
deriving DecidableEq

/-- paymentService.verifyStripePayment: re-fetch the intent and test for
the succeeded state; a gateway error is caught and yields `false`. -/
def verifyStripePayment (stripeConfigured : Bool)
    (outcome : StripeRetrieveOutcome) : Except AppError Bool :=
  if ¬ stripeConfigured then
    .error ⟨"Stripe is not configured", 500⟩
  else
    match outcome with
    | .gatewayError _ => .ok false
    | .gatewayOk status => .ok (status == "succeeded")

/-! Helper lemmas shared by the claim theorems. -/

/-- A list of orders splits by status: its length is the sum of the four
per-status filter lengths. -/
lemma length_eq_sum_status (l : List Order) :
    l.length
      = (l.filter fun o => o.status == OrderStatus.pending).length
        + (l.filter fun o => o.status == OrderStatus.processing).length
        + (l.filter fun o => o.status == OrderStatus.completed).length
        + (l.filter fun o => o.status == OrderStatus.failed).length := by
  induction l with
  | nil => rfl
  | cons a t ih =>
      cases h : a.status <;> simp [List.filter_cons, h, ih] <;> omega

/-- Membership in the flattened event list, unfolded to the originating
thread and content entry. -/
lemma mem_flattenThreads {e : StreamEvent} {l : List MessageThread} :
    e ∈ flattenThreads l ↔
      ∃ m ∈ l, ∃ c ∈ m.content, e = ⟨c.sender, c.text, c.time, m.commentId⟩ := by
  induction l with
  | nil => simp [flattenThreads]
  | cons m t ih =>
      simp only [flattenThreads, List.mem_append, List.mem_map, List.mem_cons, ih]
      constructor
      · rintro (⟨c, hc, rfl⟩ | ⟨n, hn, c, hc, rfl⟩)
        · exact ⟨m, Or.inl rfl, c, hc, rfl⟩
        · exact ⟨n, Or.inr hn, c, hc, rfl⟩
      · rintro ⟨n, (rfl | hn), c, hc, rfl⟩
        · exact Or.inl ⟨c, hc, rfl⟩
        · exact Or.inr ⟨n, hn, c, hc, rfl⟩

/-- Flattening ignores the outer sort order as far as membership goes. -/
lemma mem_flattenThreads_mergeSort {e : StreamEvent} {l : List MessageThread}
    {le : MessageThread → MessageThread → Bool} :
    e ∈ flattenThreads (l.mergeSort le) ↔ e ∈ flattenThreads l := by
  rw [mem_flattenThreads, mem_flattenThreads]
  constructor
  · rintro ⟨m, hm, hrest⟩
    exact ⟨m, List.mem_mergeSort.mp hm, hrest⟩
  · rintro ⟨m, hm, hrest⟩
    exact ⟨m, List.mem_mergeSort.mpr hm, hrest⟩

/-- Every step of the stream connection only appends to the event log. -/
lemma streamRun_events_grow (userEmail : String) (threads : List MessageThread)
    (lastId : Option String) :
    ∀ (acts : List StreamAction) (s : SseConn),
      ∃ l, (acts.foldl (streamStep userEmail threads lastId) s).events = s.events ++ l := by
  intro acts
  induction acts with
  | nil => intro s; exact ⟨[], by simp⟩
  | cons a t ih =>
      intro s
      obtain ⟨l, hl⟩ := ih (streamStep userEmail threads lastId s a)
      cases a with
      | tick now =>
          by_cases hta : s.timerActive = true
          · have hstep : streamStep userEmail threads lastId s (.tick now) =
                { s with events := s.events ++
                    (pollNewMessages (getMessagesByUserEmail threads userEmail) lastId now).map .message } := by
              simp [streamStep, hta]
            rw [hstep] at hl
            refine ⟨(pollNewMessages (getMessagesByUserEmail threads userEmail) lastId now).map .message ++ l, ?_⟩
            simp only [List.foldl_cons, hstep]
            simpa [List.append_assoc] using hl
          · have hstep : streamStep userEmail threads lastId s (.tick now) = s := by
              simp [streamStep, hta]
            rw [hstep] at hl
            exact ⟨l, by simpa [List.foldl_cons, hstep] using hl⟩
      | close =>
          exact ⟨l, by simpa [streamStep] using hl⟩

/-- Once the timer is cancelled and the response ended, further actions
leave the connection state untouched. -/
lemma streamRun_constant_after_close (userEmail : String) (threads : List MessageThread)
    (lastId : Option String) :
    ∀ (acts : List StreamAction) (s : SseConn),
      s.timerActive = false → s.resEnded = true →
      acts.foldl (streamStep userEmail threads lastId) s = s := by
  intro acts
  induction acts with
  | nil => intro s _ _; rfl
  | cons a t ih =>
      intro s h1 h2
      have hstep : streamStep userEmail threads lastId s a = s := by
        cases a with
        | tick now => simp [streamStep, h1]
        | close =>
            cases s with
            | mk ev ta re =>
                simp only at h1 h2
                subst h1; subst h2
                rfl
      rw [List.foldl_cons, hstep]
      exact ih s h1 h2

/-- The emailOk flag only ever reaches the log of updateOrder. -/
lemma updateOrder_emailOk_irrelevant (db : List Order) (id : Nat)
    (d : UpdateOrderDto) (now : Nat) (a b : Bool) :
    (updateOrder db id d now a).result = (updateOrder db id d now b).result ∧
    (updateOrder db id d now a).db = (updateOrder db id d now b).db ∧
    (updateOrder db id d now a).attempts = (updateOrder db id d now b).attempts := by
  unfold updateOrder
  cases db.find? (fun o => o.oid == id) with
  | none => exact ⟨rfl, rfl, rfl⟩
  | some prev =>
      rcases h : updateOrderNotification prev.status (applyOrderPatch prev d now).status with _ | k <;>
        simp [h, trySendEmail]

/-- The emailOk flag only ever reaches the log of completeOrder. -/
lemma completeOrder_emailOk_irrelevant (db : List Order) (id : Nat)
    (cm cl : Option String) (now : Nat) (a b : Bool) :
    (completeOrder db id cm cl now a).result = (completeOrder db id cm cl now b).result ∧
    (completeOrder db id cm cl now a).db = (completeOrder db id cm cl now b).db ∧
    (completeOrder db id cm cl now a).attempts = (completeOrder db id cm cl now b).attempts := by
  unfold completeOrder
  cases db.find? (fun o => o.oid == id) with
  | none => exact ⟨rfl, rfl, rfl⟩
  | some prev => exact ⟨rfl, rfl, rfl⟩

/-- The emailOk flag only ever reaches the log of createSiteSubmission. -/
lemma createSiteSubmission_emailOk_irrelevant (db : List SiteSubmission)
    (d : CreateSiteSubmissionDto) (now nextId : Nat) (a b : Bool) :
    (createSiteSubmission db d now nextId a).result = (createSiteSubmission db d now nextId b).result ∧
    (createSiteSubmission db d now nextId a).db = (createSiteSubmission db d now nextId b).db ∧
    (createSiteSubmission db d now nextId a).attempts = (createSiteSubmission db d now nextId b).attempts :=
  ⟨rfl, rfl, rfl⟩

/-- The emailOk flag only ever reaches the log of updateSiteSubmission. -/
lemma updateSiteSubmission_emailOk_irrelevant (db : List SiteSubmission) (id : Nat)
    (d : UpdateSiteSubmissionDto) (now : Nat) (a b : Bool) :
    (updateSiteSubmission db id d now a).result = (updateSiteSubmission db id d now b).result ∧
    (updateSiteSubmission db id d now a).db = (updateSiteSubmission db id d now b).db ∧
    (updateSiteSubmission db id d now a).attempts = (updateSiteSubmission db id d now b).attempts := by
  unfold updateSiteSubmission
  cases db.find? (fun s => s.sid == id) with
  | none => exact ⟨rfl, rfl, rfl⟩
  | some cur =>
      rcases h : submissionNotification cur.status d.status with _ | k <;>
        simp [h, trySendEmail]

/-! Claim theorems. -/

/-- C8: for every getOrderStats result, with or without the user filter,
`total` equals the sum of the four per-status counts, the average order
value times the total equals the total revenue (exactly, in ℚ), and both
revenue figures are 0 when no orders match. -/
theorem getOrderStats_consistent :
    ∀ (db : List Order) (userId : Option String),
      (getOrderStats db userId).total
          = (getOrderStats db userId).pending + (getOrderStats db userId).processing
            + (getOrderStats db userId).completed + (getOrderStats db userId).failed
      ∧ (getOrderStats db userId).averageOrderValue * ((getOrderStats db userId).total : Rat)
          = (getOrderStats db userId).totalRevenue
      ∧ ((getOrderStats db userId).total = 0 →
          (getOrderStats db userId).totalRevenue = 0
            ∧ (getOrderStats db userId).averageOrderValue = 0) := by
  intro db userId
  unfold getOrderStats
  simp only
  refine ⟨length_eq_sum_status _, ?_, ?_⟩
  · by_cases h : (db.filter fun o =>
        match userId with
        | none => true
        | some u => o.userId == u).length = 0
    · simp [h]
    · simp only [h, if_false]
      rw [div_mul_cancel₀]
      exact_mod_cast h
  · intro h
    simp [h]

/-- C8 witness: the statistics of the empty database. -/
theorem getOrderStats_consistent_witness :
    (getOrderStats [] none).total = 0
      ∧ (getOrderStats [] none).totalRevenue = 0
      ∧ (getOrderStats [] none).averageOrderValue = 0 :=
  ⟨rfl, ((getOrderStats_consistent [] none).2.2 rfl).1,
    ((getOrderStats_consistent [] none).2.2 rfl).2⟩

/-- C4: for updateOrder, completeOrder, createSiteSubmission and
updateSiteSubmission, a failing notification send (emailOk = false versus
true) changes neither the returned value, nor the persisted database, nor
the set of attempted dispatches — only the log. -/
theorem notification_failure_never_changes_outcome :
    ∀ (odb : List Order) (sdb : List SiteSubmission) (id : Nat)
      (d : UpdateOrderDto) (cm cl : Option String)
      (cd : CreateSiteSubmissionDto) (sd : UpdateSiteSubmissionDto)
      (now nextId : Nat) (a b : Bool),
      (updateOrder odb id d now a).result = (updateOrder odb id d now b).result
      ∧ (updateOrder odb id d now a).db = (updateOrder odb id d now b).db
      ∧ (updateOrder odb id d now a).attempts = (updateOrder odb id d now b).attempts
      ∧ (completeOrder odb id cm cl now a).result = (completeOrder odb id cm cl now b).result
      ∧ (completeOrder odb id cm cl now a).db = (completeOrder odb id cm cl now b).db
      ∧ (completeOrder odb id cm cl now a).attempts = (completeOrder odb id cm cl now b).attempts
      ∧ (createSiteSubmission sdb cd now nextId a).result = (createSiteSubmission sdb cd now nextId b).result
      ∧ (createSiteSubmission sdb cd now nextId a).db = (createSiteSubmission sdb cd now nextId b).db
      ∧ (createSiteSubmission sdb cd now nextId a).attempts = (createSiteSubmission sdb cd now nextId b).attempts
      ∧ (updateSiteSubmission sdb id sd now a).result = (updateSiteSubmission sdb id sd now b).result
      ∧ (updateSiteSubmission sdb id sd now a).db = (updateSiteSubmission sdb id sd now b).db
      ∧ (updateSiteSubmission sdb id sd now a).attempts = (updateSiteSubmission sdb id sd now b).attempts := by
  intro odb sdb id d cm cl cd sd now nextId a b
  obtain ⟨u1, u2, u3⟩ := updateOrder_emailOk_irrelevant odb id d now a b
  obtain ⟨c1, c2, c3⟩ := completeOrder_emailOk_irrelevant odb id cm cl now a b
  obtain ⟨s1, s2, s3⟩ := createSiteSubmission_emailOk_irrelevant sdb cd now nextId a b
  obtain ⟨t1, t2, t3⟩ := updateSiteSubmission_emailOk_irrelevant sdb id sd now a b
  exact ⟨u1, u2, u3, c1, c2, c3, s1, s2, s3, t1, t2, t3⟩

/-- C3: every order returned by a successful createOrder has status
pending and carries the creation timestamp, whatever status the caller
supplied in the input. -/
theorem createOrder_forces_pending_status :
    ∀ (users : List User) (db : List Order) (d : CreateOrderDto)
      (now nextId : Nat) (o : Order),
      (createOrder users db d now nextId).result = .ok o →
      o.status = OrderStatus.pending ∧ o.date = now := by
  intro users db d now nextId o h
  unfold createOrder at h
  cases hr : resolveUser users d with
  | none => rw [hr] at h; exact absurd h (by simp)
  | some user =>
      rw [hr] at h
      simp only at h
      split_ifs at h
      all_goals
        first
        | exact Except.noConfusion h
        | (simp only [Except.ok.injEq] at h
           subst h
           exact ⟨rfl, rfl⟩)

/-- C3 witness data: one user resolvable by e-mail. -/
def sampleUsers : List User :=
  [{ uid := "u1", user_email := "a@b", user_nicename := "al" }]

/-- C3 witness data: a caller input that supplies status completed. -/
def sampleCreateDto : CreateOrderDto :=
  { userEmail := "a@b", item_name := "x", price := some 50, type := "article",
    status := some OrderStatus.completed }

/-- C3 witness data: the order the service persists for sampleCreateDto. -/
def sampleCreatedOrder : Order :=
  { oid := 7, userId := "u1", user_id := "a@b", userName := "al", userEmail := "a@b",
    item_name := "x", price := 50, type := "article", status := OrderStatus.pending,
    date := 5 }

/-- C3 witness: despite the caller-supplied completed status, the
persisted order is pending and dated at creation time. -/
theorem createOrder_forces_pending_status_witness :
    sampleCreatedOrder.status = OrderStatus.pending ∧ sampleCreatedOrder.date = 5 :=
  createOrder_forces_pending_status sampleUsers [] sampleCreateDto 5 7
    sampleCreatedOrder (by rfl)

/-- C2: createOrder skips the ObjectId lookup when the supplied id is
absent or ill-shaped and uses the e-mail/user_id fallback; it fails with
a 404 when no user resolves and a 400 when the price/amount is not
positive, leaving the database untouched; an order is persisted only when
a user resolved and the amount was positive. -/
theorem createOrder_user_and_amount_checks :
    ∀ (users : List User) (db : List Order) (d : CreateOrderDto) (now nextId : Nat),
      ((d.userId = "" ∨ isValidObjectId d.userId = false) →
        resolveUser users d = resolveUserFallback users d)
      ∧ (resolveUser users d = none →
          createOrder users db d now nextId
            = ⟨.error ⟨"User not found", 404⟩, db, [], []⟩)
      ∧ (∀ u, resolveUser users d = some u →
          jsOrNum d.price (jsOrNum d.amount 0) ≤ 0 →
          createOrder users db d now nextId
            = ⟨.error ⟨"Order amount must be greater than 0", 400⟩, db, [], []⟩)
      ∧ (∀ o, (createOrder users db d now nextId).result = .ok o →
          (∃ u, resolveUser users d = some u)
            ∧ 0 < jsOrNum d.price (jsOrNum d.amount 0)
            ∧ (createOrder users db d now nextId).db = db ++ [o]) := by
  intro users db d now nextId
  refine ⟨?_, ?_, ?_, ?_⟩
  · intro h
    have hcond : (decide (d.userId ≠ "") && isValidObjectId d.userId) = false := by
      rcases h with h | h
      · simp [h]
      · simp [h]
    unfold resolveUser
    rw [hcond]
    simp
  · intro h
    unfold createOrder
    rw [h]
  · intro u hu hle
    unfold createOrder
    rw [hu]
    simp only
    rw [if_pos hle]
  · intro o h
    unfold createOrder at h ⊢
    cases hr : resolveUser users d with
    | none =>
        rw [hr] at h
        exact Except.noConfusion h
    | some u =>
        rw [hr] at h
        simp only at h ⊢
        split_ifs at h ⊢ with h1 h2 h3
        all_goals
          first
          | exact Except.noConfusion h
          | (simp only [Except.ok.injEq] at h
             subst h
             exact ⟨⟨u, rfl⟩, lt_of_not_le h1, rfl⟩)

/-- C2 witness: with no users at all, createOrder fails NotFound with an
untouched database. -/
theorem createOrder_user_and_amount_checks_witness :
    createOrder [] [] {} 0 0
      = ⟨.error ⟨"User not found", 404⟩, [], [], []⟩ :=
  (createOrder_user_and_amount_checks [] [] {} 0 0).2.1 rfl

/-- The updated document updateOrder returns when the order exists. -/
lemma updateOrder_result_eq (db : List Order) (id : Nat) (d : UpdateOrderDto)
    (now : Nat) (emailOk : Bool) (prev : Order)
    (hfind : db.find? (fun x => x.oid == id) = some prev) :
    (updateOrder db id d now emailOk).result = .ok (applyOrderPatch prev d now) := by
  unfold updateOrder
  rw [hfind]

/-- The notification attempts updateOrder makes when the order exists. -/
lemma updateOrder_attempts_eq (db : List Order) (id : Nat) (d : UpdateOrderDto)
    (now : Nat) (emailOk : Bool) (prev : Order)
    (hfind : db.find? (fun x => x.oid == id) = some prev) :
    (updateOrder db id d now emailOk).attempts
      = (match updateOrderNotification prev.status (applyOrderPatch prev d now).status with
          | none => ([], [])
          | some k => trySendEmail ⟨k, (applyOrderPatch prev d now).userEmail⟩ emailOk).1 := by
  unfold updateOrder
  rw [hfind]

/-- C1 (amended): when updateOrder changes the persisted status, the
dispatch follows the rules (a) pending→processing: confirmation,
(b) →completed: completion, (c) →failed, or →processing from a non-pending
state: generic status update — exactly one attempt in each of those cases —
but a change back to pending attempts no notification at all, and an
unchanged status attempts none. -/
theorem updateOrder_notification_rules :
    ∀ (db : List Order) (id : Nat) (d : UpdateOrderDto) (now : Nat)
      (emailOk : Bool) (prev o : Order),
      db.find? (fun x => x.oid == id) = some prev →
      (updateOrder db id d now emailOk).result = .ok o →
      ((o.status = prev.status → (updateOrder db id d now emailOk).attempts = [])
        ∧ (prev.status = .pending ∧ o.status = .processing →
            (updateOrder db id d now emailOk).attempts
              = [⟨.orderConfirmation, o.userEmail⟩])
        ∧ (o.status ≠ prev.status → o.status = .completed →
            (updateOrder db id d now emailOk).attempts
              = [⟨.orderCompletion, o.userEmail⟩])
        ∧ (o.status ≠ prev.status →
            (o.status = .failed ∨ (o.status = .processing ∧ prev.status ≠ .pending)) →
            (updateOrder db id d now emailOk).attempts
              = [⟨.orderStatusUpdate, o.userEmail⟩])
        ∧ (o.status ≠ prev.status → o.status = .pending →
            (updateOrder db id d now emailOk).attempts = [])
        ∧ (o.status ≠ prev.status → o.status ≠ .pending →
            (updateOrder db id d now emailOk).attempts.length = 1)) := by
  intro db id d now emailOk prev o hfind hres
  have hres2 := updateOrder_result_eq db id d now emailOk prev hfind
  rw [hres] at hres2
  simp only [Except.ok.injEq] at hres2
  subst hres2
  rw [updateOrder_attempts_eq db id d now emailOk prev hfind]
  generalize applyOrderPatch prev d now = upd
  generalize prev.status = s1
  cases s1 <;> cases hs2 : upd.status <;>
    simp [updateOrderNotification, trySendEmail, hs2]

/-- C1 witness data: a pending order. -/
def pendingSampleOrder : Order :=
  { oid := 2, userId := "u1", user_id := "a@b", userName := "al", userEmail := "a@b",
    item_name := "x", price := 50, type := "article", status := OrderStatus.pending,
    date := 0 }

/-- C1 witness: moving the pending sample order to processing attempts
exactly the payment-confirmation e-mail. -/
theorem updateOrder_notification_rules_witness :
    (updateOrder [pendingSampleOrder] 2 { status := some OrderStatus.processing } 5 true).attempts
      = [⟨.orderConfirmation,
          (applyOrderPatch pendingSampleOrder { status := some OrderStatus.processing } 5).userEmail⟩] :=
  (updateOrder_notification_rules [pendingSampleOrder] 2
      { status := some OrderStatus.processing } 5 true pendingSampleOrder
      (applyOrderPatch pendingSampleOrder { status := some OrderStatus.processing } 5)
      rfl rfl).2.1 ⟨rfl, rfl⟩

/-- C1 counterexample data: a processing order about to be reverted. -/
def processingSampleOrder : Order :=
  { oid := 1, userId := "u1", user_id := "a@b", userName := "al", userEmail := "a@b",
    item_name := "x", price := 50, type := "article", status := OrderStatus.processing,
    date := 0 }

/-- C1 counterexample: updating the processing sample order back to
pending changes the persisted status, yet zero notification dispatches
are attempted — no rule of (a)/(b)/(c) matches, contradicting the claim
that every status-changing update attempts exactly one e-mail. -/
theorem updateOrder_revert_to_pending_attempts_none :
    processingSampleOrder.status = OrderStatus.processing
      ∧ (updateOrder [processingSampleOrder] 1
            { status := some OrderStatus.pending } 5 true).result.map Order.status
          = .ok OrderStatus.pending
      ∧ (updateOrder [processingSampleOrder] 1
            { status := some OrderStatus.pending } 5 true).attempts = [] :=
  ⟨rfl, rfl, rfl⟩

/-- C5: on each poll, with a last-seen cursor supplied the pushed events
are exactly the flattened thread content entries of the authenticated user
strictly newer than the poll time minus 10 seconds; without a cursor,
all flattened entries of the user are pushed. -/
theorem messageStream_poll_window :
    ∀ (threads : List MessageThread) (userEmail cursor : String) (now : Nat)
      (e : StreamEvent),
      (e ∈ pollNewMessages (getMessagesByUserEmail threads userEmail) (some cursor) now ↔
        e ∈ flattenThreads (threads.filter fun t => t.userEmail == userEmail)
          ∧ now - 10000 < e.time)
      ∧ (e ∈ pollNewMessages (getMessagesByUserEmail threads userEmail) none now ↔
          e ∈ flattenThreads (threads.filter fun t => t.userEmail == userEmail)) := by
  intro threads userEmail cursor now e
  unfold pollNewMessages getMessagesByUserEmail
  constructor
  · rw [List.mem_filter, mem_flattenThreads_mergeSort]
    simp
  · rw [List.mem_filter, mem_flattenThreads_mergeSort]
    simp

/-- C6: an authenticated stream connection always has the connected
acknowledgement as its first written event, and once the client
disconnects (the close action: clearInterval plus res.end) no later tick
adds any further event — the run is identical to the one truncated at the
disconnect. -/
theorem messageStream_connected_first_and_stops_on_close :
    ∀ (threads : List MessageThread) (userEmail : String) (lastId : Option String)
      (acts : List StreamAction),
      (messageStreamRun threads userEmail lastId acts).events.head?
          = some SseEvent.connected
      ∧ (∀ pre post, acts = pre ++ StreamAction.close :: post →
          messageStreamRun threads userEmail lastId acts
            = messageStreamRun threads userEmail lastId (pre ++ [StreamAction.close])) := by
  intro threads userEmail lastId acts
  constructor
  · obtain ⟨l, hl⟩ :=
      streamRun_events_grow userEmail threads lastId acts (messageStreamInit (some userEmail))
    unfold messageStreamRun
    rw [hl]
    rfl
  · intro pre post h
    subst h
    unfold messageStreamRun
    rw [List.foldl_append, List.foldl_append]
    simp only [List.foldl_cons, List.foldl_nil]
    exact streamRun_constant_after_close userEmail threads lastId post _ rfl rfl

/-- C6 witness: a concrete connection that ticks, disconnects, then sees
one more tick; the first event is the acknowledgement and the post-close
tick changes nothing. -/
theorem messageStream_connected_first_and_stops_on_close_witness :
    (messageStreamRun [] "a@b" none
        [StreamAction.tick 0, StreamAction.close, StreamAction.tick 2]).events.head?
        = some SseEvent.connected
      ∧ messageStreamRun [] "a@b" none
            [StreamAction.tick 0, StreamAction.close, StreamAction.tick 2]
          = messageStreamRun [] "a@b" none [StreamAction.tick 0, StreamAction.close] :=
  ⟨(messageStream_connected_first_and_stops_on_close [] "a@b" none
      [StreamAction.tick 0, StreamAction.close, StreamAction.tick 2]).1,
    (messageStream_connected_first_and_stops_on_close [] "a@b" none
      [StreamAction.tick 0, StreamAction.close, StreamAction.tick 2]).2
      [StreamAction.tick 0] [StreamAction.tick 2] rfl⟩

/-- C7: addMessageToThread on an existing thread appends the entry at the
end of the content sequence (length grows by exactly one), moves `date`
forward to the call time, and forces approved = 1; the updated document
replaces the matched thread; on a missing thread id it returns null and
leaves the database untouched. -/
theorem addMessageToThread_appends :
    ∀ (threads : List MessageThread) (cid : String) (msg : MessageContent) (now : Nat),
      (∀ m, threads.find? (fun t => t.commentId == cid) = some m →
        m.date ≤ now →
        ∃ upd, (addMessageToThread threads cid msg now).1 = some upd
          ∧ upd.content = m.content ++ [msg]
          ∧ upd.content.length = m.content.length + 1
          ∧ m.date ≤ upd.date
          ∧ upd.approved = 1
          ∧ (addMessageToThread threads cid msg now).2
              = replaceFirst (fun t => t.commentId == cid) upd threads)
      ∧ (threads.find? (fun t => t.commentId == cid) = none →
          addMessageToThread threads cid msg now = (none, threads)) := by
  intro threads cid msg now
  constructor
  · intro m hm hd
    unfold addMessageToThread
    rw [hm]
    exact ⟨_, rfl, rfl, by simp, hd, rfl, rfl⟩
  · intro h
    unfold addMessageToThread
    rw [h]

/-- C7 witness data: a one-entry thread dated 3. -/
def sampleThread : MessageThread :=
  { commentId := "c1", userEmail := "a@b",
    content := [{ sender := "s", text := "hi", time := 3 }], date := 3, approved := 0 }

/-- C7 witness: appending a reply at time 9 to the sample thread. -/
theorem addMessageToThread_appends_witness :
    ∃ upd, (addMessageToThread [sampleThread] "c1" ⟨"t", "yo", 9⟩ 9).1 = some upd
      ∧ upd.content = sampleThread.content ++ [⟨"t", "yo", 9⟩]
      ∧ upd.content.length = sampleThread.content.length + 1
      ∧ sampleThread.date ≤ upd.date
      ∧ upd.approved = 1
      ∧ (addMessageToThread [sampleThread] "c1" ⟨"t", "yo", 9⟩ 9).2
          = replaceFirst (fun t => t.commentId == "c1") upd [sampleThread] :=
  (addMessageToThread_appends [sampleThread] "c1" ⟨"t", "yo", 9⟩ 9).1
    sampleThread rfl (by decide)

/-- C10: updateSiteSubmission on an existing submission always overwrites
reviewedAt with the current call time, even when the patch carries no
status change (for instance an adminNotes-only update): reviewedAt records
the latest update, not the review decision. -/
theorem updateSiteSubmission_overwrites_reviewedAt :
    ∀ (db : List SiteSubmission) (id : Nat) (d : UpdateSiteSubmissionDto)
      (now : Nat) (emailOk : Bool) (cur : SiteSubmission),
      db.find? (fun s => s.sid == id) = some cur →
      ∃ upd, (updateSiteSubmission db id d now emailOk).result = .ok upd
        ∧ upd.reviewedAt = some now
        ∧ (d.status = none → upd.status = cur.status)
        ∧ (updateSiteSubmission db id d now emailOk).db
            = replaceFirst (fun s => s.sid == id) upd db := by
  intro db id d now emailOk cur hfind
  unfold updateSiteSubmission
  rw [hfind]
  refine ⟨_, rfl, rfl, ?_, rfl⟩
  intro hs
  simp [hs]

/-- C10 witness data: a pending submission reviewed at time 1. -/
def sampleSubmission : SiteSubmission :=
  { sid := 4, userName := "al", userEmail := "a@b", websites := ["https://w1"],
    status := SubmissionStatus.pending, submittedAt := 0, reviewedAt := some 1 }

/-- C10 witness: an adminNotes-only patch at time 9 still overwrites the
reviewedAt of the sample submission, leaving the status untouched. -/
theorem updateSiteSubmission_overwrites_reviewedAt_witness :
    ∃ upd, (updateSiteSubmission [sampleSubmission] 4
          { adminNotes := some "checked" } 9 true).result = .ok upd
      ∧ upd.reviewedAt = some 9
      ∧ upd.status = sampleSubmission.status
      ∧ (updateSiteSubmission [sampleSubmission] 4
            { adminNotes := some "checked" } 9 true).db
          = replaceFirst (fun s => s.sid == 4) upd [sampleSubmission] :=
  match updateSiteSubmission_overwrites_reviewedAt [sampleSubmission] 4
      { adminNotes := some "checked" } 9 true sampleSubmission rfl with
  | ⟨upd, h1, h2, h3, h4⟩ => ⟨upd, h1, h2, h3 rfl, h4⟩

/-- C9 counterexample: a Stripe verification call whose gateway re-fetch
fails is not surfaced as a typed application error at all — the failure is
caught and the call resolves to ok false, contradicting the claim that
every payment-gateway failure is surfaced as a typed error carrying the
message and status code of the gateway. -/
theorem verifyStripePayment_swallows_gateway_error :
    verifyStripePayment true (StripeRetrieveOutcome.gatewayError "gateway timeout")
      = Except.ok false :=
  rfl

/-- C9 (amended): PayPal create-payment gateway failures are surfaced as
typed application errors: a 401 or invalid_client response is classified
as a credential-configuration error with a distinguishing message and
status 401, any other gateway error passes through the gateway message
and status code (500 when absent); Stripe verification, by contrast,
catches its gateway failures and returns false instead of raising. -/
theorem paypal_create_error_classification :
    ∀ e : PayPalError,
      ((e.httpStatusCode = some 401 ∨ e.responseError = some "invalid_client") →
        createPayPalPayment true (.gatewayError e)
          = .error ⟨"PayPal authentication failed: "
              ++ jsOrOpt e.responseErrorDescription e.errMessage "PayPal authentication failed"
              ++ ". Please verify your PayPal credentials in the .env file match your PayPal Developer Dashboard.",
              401⟩)
      ∧ (¬(e.httpStatusCode = some 401 ∨ e.responseError = some "invalid_client") →
          createPayPalPayment true (.gatewayError e)
            = .error ⟨jsOrOpt e.errMessage e.responseErrorDescription
                  "Failed to create PayPal payment",
                e.httpStatusCode.getD 500⟩)
      ∧ (∀ m, verifyStripePayment true (.gatewayError m) = .ok false) := by
  intro e
  refine ⟨?_, ?_, fun m => rfl⟩
  · intro h
    unfold createPayPalPayment
    rw [if_neg (by simp)]
    simp only
    rw [if_pos h]
  · intro h
    unfold createPayPalPayment
    rw [if_neg (by simp)]
    simp only
    rw [if_neg h]

/-- C9 witness: a bare 401 gateway error is classified as the
credential-configuration error with status 401. -/
theorem paypal_create_error_classification_witness :
    createPayPalPayment true (.gatewayError { httpStatusCode := some 401 })
      = .error ⟨"PayPal authentication failed: PayPal authentication failed. Please verify your PayPal credentials in the .env file match your PayPal Developer Dashboard.",
          401⟩ := by
  have h := (paypal_create_error_classification { httpStatusCode := some 401 }).1 (Or.inl rfl)
  simpa [jsOrOpt] using h

end Guestpost
